import Mathlib

/-!
Shallow embedding of the Autelis Pool Control node server
(`autelisapi.py` and `autelis-poly.py`).

Strings from the Python source are embedded as `List Char`; bytes read
from the TCP socket are likewise embedded as `List Char` (the source
decodes them as UTF-8 before any inspection).  A Python function that can
raise an exception is embedded as an `Option`- or `Except`-valued
function, with `none` / `.error` marking the raised exception.
-/

/-- A character allowed in a protocol token, i.e. matched by the character
class `[A-Z0-9]` of `_STATUS_UPDATE_MATCH_PATTERN` in `autelisapi.py`. -/
def isTokenChar (c : Char) : Bool :=
  ('A' ≤ c && c ≤ 'Z') || c.isDigit

/-- Numeric value of a list of decimal digit characters (most significant
first), as computed by Python `int` on a digit string. -/
def digitsVal (l : List Char) : Nat :=
  l.foldl (fun a c => 10 * a + (c.toNat - 48)) 0

/-- Embedding of Python `int(s)` applied to a string: `some n` when the
conversion succeeds, `none` when `int` raises `ValueError`.  Modelled for
strings consisting of an optional leading minus sign followed by ASCII
decimal digits; Python's further accepted forms (surrounding whitespace,
a plus sign, underscore separators, non-ASCII digits) use characters that
never occur in the strings this repository converts, which are drawn from
the protocol alphabet `[A-Z0-9]` and the numeric fields of the status
document. -/
def pyInt? (l : List Char) : Option Int :=
  if l.head? = some '-' then
    if l.tail ≠ [] ∧ l.tail.all Char.isDigit then
      some (-(digitsVal l.tail : Int))
    else none
  else
    if l ≠ [] ∧ l.all Char.isDigit then
      some ((digitsVal l : Int))
    else none

/-- Embedding of `cmd_to_element` from `autelisapi.py` (lines 203-232).
Translates a TCP serial-port command token to the element tag used by the
HTTP command interface.  `cmd[:3] == "CIR"` is `cmd.take 3 = "CIR".data`;
Python `int(cmd[3:])` raises `ValueError` when the remainder is not a
valid integer literal, embedded here as the result `none`.
`str.lower()` is embedded as `Char.toLower` on each character, which
agrees with Python on the ASCII tokens of the protocol alphabet. -/
def cmd_to_element (cmd : List Char) : Option (List Char) :=
  if cmd.take 3 = "CIR".data then
    (pyInt? (cmd.drop 3)).map fun circuitNum =>
      if circuitNum ≥ 41 ∧ circuitNum ≤ 50 then
        "feature".data ++ (toString (circuitNum - 40)).data
      else
        "circuit".data ++ cmd.drop 3
  else if cmd = "AIRTMP".data then some "airtemp".data
  else if cmd = "SPATMP".data then some "spatemp".data
  else if cmd = "SOLHT".data then some "solarht".data
  else if cmd = "SOLTMP".data then some "solartemp".data
  else if cmd = "WFALL".data then some "waterfall".data
  else if cmd = "CLEAN".data then some "cleaner".data
  else if cmd = "OPTIONS".data then some "dip".data
  else if cmd = "UNITS".data then some "tempunits".data
  else if cmd = "POOLTMP".data then some "pooltemp".data
  else if cmd = "POOLTMP2".data then some "pooltemp".data
  else some (cmd.map Char.toLower)

/-- Embedding of `val_to_text` from `autelisapi.py` (lines 236-263).
Translates a TCP serial-port value token to the element text used by the
HTTP command interface; unmatched tokens are returned unchanged. -/
def val_to_text (val : List Char) : List Char :=
  if val = "AUTO".data then "0".data
  else if val = "SERVICE".data then "1".data
  else if val = "TIMEOUT".data then "2".data
  else if val = "TRUE".data then "1".data
  else if val = "FALSE".data then "0".data
  else if val = "T".data then "1".data
  else if val = "F".data then "0".data
  else if val = "ON".data then "1".data
  else if val = "OFF".data then "0".data
  else if val = "HEATER".data then "1".data
  else if val = "SOLPREF".data then "2".data
  else if val = "SOLAR".data then "3".data
  else val

/-- Longest leading run of protocol-token characters of a character list,
together with the remainder.  This is how the greedy group `([A-Z0-9]+)`
of `_STATUS_UPDATE_MATCH_PATTERN` consumes input: since each group is
followed in the pattern by a character that is not in `[A-Z0-9]`
(`=`, ` `, or `\r` — an optional `F`/`C` is itself in the class and is
absorbed by the group), the group always captures the maximal run. -/
def takeTokenRun : List Char → List Char × List Char
  | [] => ([], [])
  | c :: rest =>
    if isTokenChar c then
      ((takeTokenRun rest).1.cons c, (takeTokenRun rest).2)
    else ([], c :: rest)

/-- The optional space of `_STATUS_UPDATE_MATCH_PATTERN` (` ?`). -/
def dropOptSpace : List Char → List Char
  | ' ' :: r => r
  | r => r

/-- The optional temperature-unit letter of
`_STATUS_UPDATE_MATCH_PATTERN` (`[FC]?`). -/
def dropOptUnit : List Char → List Char
  | 'F' :: r => r
  | 'C' :: r => r
  | r => r

/-- Embedding of
`re.match(_STATUS_UPDATE_MATCH_PATTERN, msg.decode("utf-8"))` from
`status_listener` (line 184), where the pattern is
`!00 ([A-Z0-9]+)=([A-Z0-9]+) ?[FC]?\r\n`.  `re.match` anchors the pattern
at the start of the string only, so trailing bytes after `\r\n` are
allowed; a successful match yields the two captured groups. -/
def parseStatusUpdate : List Char → Option (List Char × List Char)
  | '!' :: '0' :: '0' :: ' ' :: rest =>
    if (takeTokenRun rest).1 = [] then none
    else if (takeTokenRun rest).2.head? = some '=' then
      if (takeTokenRun ((takeTokenRun rest).2.tail)).1 = [] then none
      else if (dropOptUnit (dropOptSpace
          (takeTokenRun ((takeTokenRun rest).2.tail)).2)).take 2 = ['\r', '\n'] then
        some ((takeTokenRun rest).1, (takeTokenRun ((takeTokenRun rest).2.tail)).1)
      else none
    else none
  | _ => none

/-- The set of line endings after the value token for which the captured
value group is exactly the token: the bare `\r\n`, or a space followed by
an optional unit letter and `\r\n`.  (A unit letter not preceded by a
space would be absorbed into the greedy value group itself.) -/
def wfTails : List (List Char) :=
  ["\r\n".data, " \r\n".data, " F\r\n".data, " C\r\n".data]

/-- Python `pat in msg` on byte strings: `pat` occurs as a contiguous
substring of `msg`.  Used for `_TEST_RTN_SUCCESS in msg` in
`status_listener` (line 167). -/
def containsSub (pat msg : List Char) : Bool :=
  msg.tails.any fun t => pat.isPrefixOf t

/-- The probe message `_TEST_TCP_MSG = b"#OPMODE?\r"`. -/
def _TEST_TCP_MSG : List Char := "#OPMODE?\r".data

/-- The probe success marker `_TEST_RTN_SUCCESS = b"!00 OPMODE="`. -/
def _TEST_RTN_SUCCESS : List Char := "!00 OPMODE=".data

/-- Outcome of the 2-second `conn.recv(_BUFFER_SIZE)` issued for the
liveness probe in `status_listener` (lines 150-164): the reply bytes, a
`socket.timeout`, a `socket.error`, or some other unexpected exception
(which the source re-raises after closing the connection). -/
inductive ProbeOutcome
  | reply (msg : List Char)
  | timeout
  | sockError
  | unexpected

/-- Outcome of the 600-second `conn.recv(_BUFFER_SIZE)` of one iteration
of the steady loop in `status_listener` (lines 143-178): bytes received
(possibly the empty string when the peer performed an orderly shutdown),
the idle timeout (`socket.timeout`, which triggers the probe whose own
outcome is carried alongside), a `socket.error`, or some other unexpected
exception. -/
inductive RecvOutcome
  | data (msg : List Char)
  | idleTimeout (p : ProbeOutcome)
  | sockError
  | unexpected

/-- Result of one iteration of the steady loop of `status_listener`:
either the loop continues (optionally having invoked the caller's
`statusUpdateCallback` with one normalized event), or the listener closed
the connection and returned `False` (the failure signal), or an
unexpected exception propagated out of the listener. -/
inductive StepResult
  | next (event : Option (List Char × List Char))
  | failed
  | crashed
deriving DecidableEq

/-- Embedding of the message-processing tail of the steady loop of
`status_listener` (lines 181-199): an empty payload is skipped; a payload
matching the status-update pattern has its two tokens translated by
`cmd_to_element` / `val_to_text` and delivered to the callback (a raised
`ValueError` from `cmd_to_element` propagates, embedded as `.crashed`);
a non-matching payload is logged and skipped. -/
def processMsg (msg : List Char) : StepResult :=
  if msg.length > 0 then
    match parseStatusUpdate msg with
    | some (cmd, val) =>
      match cmd_to_element cmd with
      | some e => .next (some (e, val_to_text val))
      | none => .crashed
    | none => .next none
  else .next none

/-- Embedding of one full iteration of the steady loop of
`status_listener` (lines 140-199) as a function of the socket's
behaviour: data received is processed by `processMsg`; a `socket.error`
closes the connection and returns `False`; on the 600-second idle timeout
the probe is sent and its reply must contain `_TEST_RTN_SUCCESS`, in
which case the reply bytes themselves continue into `processMsg`, while a
probe timeout, socket error or marker-less reply closes the connection
and returns `False`. -/
def listenerStep : RecvOutcome → StepResult
  | .data msg => processMsg msg
  | .sockError => .failed
  | .unexpected => .crashed
  | .idleTimeout p =>
    match p with
    | .timeout => .failed
    | .sockError => .failed
    | .unexpected => .crashed
    | .reply msg =>
      if containsSub _TEST_RTN_SUCCESS msg then processMsg msg
      else .failed

/-- How a (finite prefix of a) run of `status_listener` ends:
`failedSignal` is the single `return False` after closing the connection,
`crashed` is a propagated unexpected exception, and `pending` means the
supplied socket outcomes were exhausted with the listener still in its
steady receive loop. -/
inductive ListenerExit
  | failedSignal
  | crashed
  | pending
deriving DecidableEq

/-- Run of the steady loop of `status_listener` over a finite sequence of
socket outcomes: collects, in order, the normalized events delivered to
the caller's `statusUpdateCallback`, and reports how the run ended.  The
loop stops at the first failure signal or crash; `while True` otherwise
continues. -/
def runListener : List RecvOutcome → List (List Char × List Char) × ListenerExit
  | [] => ([], .pending)
  | o :: rest =>
    match listenerStep o with
    | .failed => ([], .failedSignal)
    | .crashed => ([], .crashed)
    | .next none => runListener rest
    | .next (some ev) => ((runListener rest).1.cons ev, (runListener rest).2)

/-- A parsed XML element as produced by `xml.etree.ElementTree`: a tag,
optional text, and child elements.  Only the parts this repository reads
are modelled. -/
structure XmlElem where
  tag : List Char
  text : Option (List Char)
  children : List XmlElem

/-- Outcome of the `requests.get` call in `get_status` (lines 49-57),
including `response.raise_for_status()`: the three exception classes the
source catches, any other unexpected exception, a body that
`xml.fromstring` fails to parse (that call sits outside the
`try`/`except`, so the parse error propagates), or a successfully parsed
document. -/
inductive HttpOutcome
  | timeout
  | connError
  | httpError
  | unexpected
  | badBody
  | success (doc : XmlElem)

/-- Embedding of `AutelisInterface.get_status` (lines 44-72) as a
function of the HTTP outcome.  `.ok none` is the Python return value
`None`; `.error ()` is a propagated exception.  A caught
timeout/connection/HTTP error is logged and returns `None`; an
unexpected exception or XML parse failure propagates; a parsed document
whose root tag is not `response` is logged and returns `None`. -/
def AutelisInterface.get_status : HttpOutcome → Except Unit (Option XmlElem)
  | .timeout => .ok none
  | .connError => .ok none
  | .httpError => .ok none
  | .unexpected => .error ()
  | .badBody => .error ()
  | .success doc =>
    if doc.tag = "response".data then .ok (some doc)
    else .ok none

/-- Outcome of the `requests.get` call in `send_command` (lines 80-91),
including `response.raise_for_status()`. -/
inductive CmdOutcome
  | timeout
  | connError
  | httpError
  | unexpected
  | ok

/-- The query string of the authenticated GET issued by `send_command`:
`name={name}&{label}={value}` with `value=str(int(value))`. -/
def commandQuery (element label : List Char) (value : Int) : List Char :=
  "name=".data ++ element ++ "&".data ++ label ++ "=".data ++ (toString value).data

/-- Embedding of `AutelisInterface.send_command` (lines 75-102): the
query string of the single authenticated GET it issues, paired with its
result as a function of the HTTP outcome — `.ok true` on HTTP success,
`.ok false` on a caught timeout/connection/HTTP error, `.error ()` for a
propagated unexpected exception. -/
def AutelisInterface.send_command (element label : List Char) (value : Int)
    (outcome : CmdOutcome) : List Char × Except Unit Bool :=
  (commandQuery element label value,
   match outcome with
   | .timeout => .ok false
   | .connError => .ok false
   | .httpError => .ok false
   | .unexpected => .error ()
   | .ok => .ok true)

/-- Constant `_AUTELIS_ON_VALUE = 1`. -/
def _AUTELIS_ON_VALUE : Int := 1

/-- Constant `_AUTELIS_OFF_VALUE = 0`. -/
def _AUTELIS_OFF_VALUE : Int := 0

/-- Embedding of `AutelisInterface.on` (lines 104-105). -/
def AutelisInterface.on (element : List Char) (outcome : CmdOutcome) :
    List Char × Except Unit Bool :=
  AutelisInterface.send_command element "value".data _AUTELIS_ON_VALUE outcome

/-- Embedding of `AutelisInterface.off` (lines 107-108). -/
def AutelisInterface.off (element : List Char) (outcome : CmdOutcome) :
    List Char × Except Unit Bool :=
  AutelisInterface.send_command element "value".data _AUTELIS_OFF_VALUE outcome

/-- Embedding of `AutelisInterface.set_temp` (lines 110-111). -/
def AutelisInterface.set_temp (element : List Char) (value : Int)
    (outcome : CmdOutcome) : List Char × Except Unit Bool :=
  AutelisInterface.send_command element "temp".data value outcome

/-- Embedding of `AutelisInterface.set_heat_setting` (lines 113-114). -/
def AutelisInterface.set_heat_setting (element : List Char) (value : Int)
    (outcome : CmdOutcome) : List Char × Except Unit Bool :=
  AutelisInterface.send_command element "hval".data value outcome

/-- The ISY thermostat modes named by the CLIMD driver codes written in
`TempControl.update_thermo_drivers` (`autelis-poly.py` lines 122-129):
0 Off, 1 Heat, 3 Auto, 4 Aux/Emergency Heat. -/
inductive ThermoMode
  | Off
  | Heat
  | Auto
  | AuxHeat
deriving DecidableEq

/-- Decode an ISY CLIMD driver code to its thermostat mode. -/
def isyThermoMode : Int → Option ThermoMode
  | 0 => some .Off
  | 1 => some .Heat
  | 3 => some .Auto
  | 4 => some .AuxHeat
  | _ => none

/-- The ISY heat/cool states named by the CLIHCS driver codes written in
`TempControl.update_thermo_drivers` (lines 132-152): 0 Idle, 1 Heating,
7 Aux Heat. -/
inductive HeatCoolStatus
  | Idle
  | Heating
  | AuxHeat
deriving DecidableEq

/-- Decode an ISY CLIHCS driver code to its heat/cool state. -/
def isyHeatCoolStatus : Int → Option HeatCoolStatus
  | 0 => some .Idle
  | 1 => some .Heating
  | 7 => some .AuxHeat
  | _ => none

/-- Embedding of `TempControl.update_thermo_drivers` (`autelis-poly.py`
lines 119-152) as a pure derivation: given the node's address, the heater
setting and the heating-status bitmask, returns the CLIMD driver value
written, and the CLIHCS driver value written (none when the address is
neither `spaht` nor `poolht`, in which case the source writes no CLIHCS
driver).  The binary literals `int("0010", 2)` etc. of the source are the
numbers 2, 8, 1, 4. -/
def update_thermo_drivers (address : List Char) (setting htstatus : Int) :
    Int × Option Int :=
  ((if setting = 1 then 1
    else if setting = 2 then 3
    else if setting = 3 then 4
    else 0),
   (if address = "spaht".data then
      some (if Int.land htstatus 2 ≠ 0 then 1
            else if Int.land htstatus 8 ≠ 0 then 7
            else 0)
    else if address = "poolht".data then
      some (if Int.land htstatus 1 ≠ 0 then 1
            else if Int.land htstatus 4 ≠ 0 then 7
            else 0)
    else none))

/-- Per-device state store: driver values keyed by (node address, driver
name), `none` when never written.  The controller node is keyed by the
address `controller` (the source names its `Controller` node
`controller`; the concrete node address is assigned by the external
framework). -/
def DeviceStates := List Char × List Char → Option Int

/-- Effect of `node.setDriver(driver, v)` on the node at address
`addr`. -/
def setDriver (st : DeviceStates) (addr driver : List Char) (v : Int) :
    DeviceStates :=
  fun k => if k = (addr, driver) then some v else st k

/-- Embedding of the controller-driver writes of
`Controller.update_node_states` (`autelis-poly.py` lines 345-362): the
eight values read from the `system` and `temp` snapshot groups are
written, in source order, to the controller node drivers GV0 (runstate),
GV1 (opmode), GV2 (freeze), GV3-GV5 (sensor1-sensor3), CLITEMP (read
from snapshot element `airtemp`) and GV9 (solar temperature, read from
snapshot element `soltemp` at line 352). -/
def update_controller_drivers (st : DeviceStates)
    (runstate opmode freeze waterSensor solarSensor airSensor
     airTemp solarTemp : Int) : DeviceStates :=
  setDriver (setDriver (setDriver (setDriver (setDriver (setDriver (setDriver
    (setDriver st "controller".data "GV0".data runstate)
    "controller".data "GV1".data opmode)
    "controller".data "GV2".data freeze)
    "controller".data "GV3".data waterSensor)
    "controller".data "GV4".data solarSensor)
    "controller".data "GV5".data airSensor)
    "controller".data "CLITEMP".data airTemp)
    "controller".data "GV9".data solarTemp

/-- Embedding of one temp-control section of
`Controller.update_node_states` (lines 364-374 for `poolht`, lines
376-386 for `spaht`): writes the node state ST (current temperature) and
CLISPH (setpoint) drivers and then, via
`TempControl.update_thermo_drivers`, the CLIMD driver and — for the two
heater addresses — the CLIHCS driver. -/
def update_temp_control (st : DeviceStates) (addr : List Char)
    (setting htstatus setPoint currentTemp : Int) : DeviceStates :=
  match (update_thermo_drivers addr setting htstatus).2 with
  | some hcs =>
    setDriver (setDriver (setDriver (setDriver st addr "ST".data currentTemp)
      addr "CLISPH".data setPoint)
      addr "CLIMD".data (update_thermo_drivers addr setting htstatus).1)
      addr "CLIHCS".data hcs
  | none =>
    setDriver (setDriver (setDriver st addr "ST".data currentTemp)
      addr "CLISPH".data setPoint)
      addr "CLIMD".data (update_thermo_drivers addr setting htstatus).1

/-- Embedding of the equipment loop of `Controller.update_node_states`
(`autelis-poly.py` lines 389-399): for each child element of
`equipment`, when a node with the child tag exists, set that node state
ST driver to `int(element.text)`.  Python `int` applied to a missing
(`None`) or non-numeric text raises, embedded as `.error ()`. -/
def update_equipment_states (nodes : List (List Char)) (st : DeviceStates) :
    List XmlElem → Except Unit DeviceStates
  | [] => .ok st
  | child :: rest =>
    if child.tag ∈ nodes then
      match child.text with
      | some t =>
        match pyInt? t with
        | some v => update_equipment_states nodes (setDriver st child.tag "ST".data v) rest
        | none => .error ()
      | none => .error ()
    else update_equipment_states nodes st rest

/-- Modelled from the spec: the caller-supplied `statusUpdateCallback`
(the push-side Equipment/Thermostat State Mapper) is not present under
`src/` — `autelis-poly.py` declares `threadMonitor` but never starts the
listener or defines a handler.  Per spec sections 2, 3, 4.3, 4.4 and 5
the handler applies one normalized `(elementName, textValue)` event to
the shared per-device state, last-write-wins, keyed by the canonical
HTTP/snapshot vocabulary of section 3: the `system` fields and the two
controller temperatures go to the controller node drivers the snapshot
path writes, the thermostat value fields go to the ST/CLISPH drivers of
the `poolht`/`spaht` nodes, a heater-setting event recomputes that
thermostat mode driver (the mode derivation of
`update_thermo_drivers` reads only the setting), a heating-status event
recomputes both thermostat heat/cool-status drivers (that derivation
reads only the bitmask), and an element naming an equipment node sets
that node state ST driver.  An event naming no device/field — or one
whose text is not numeric — is reported as not applied and leaves the
state unchanged. -/
def applyEvent (nodes : List (List Char)) (st : DeviceStates)
    (ev : List Char × List Char) : DeviceStates :=
  match pyInt? ev.2 with
  | none => st
  | some v =>
    if ev.1 = "runstate".data then setDriver st "controller".data "GV0".data v
    else if ev.1 = "opmode".data then setDriver st "controller".data "GV1".data v
    else if ev.1 = "freeze".data then setDriver st "controller".data "GV2".data v
    else if ev.1 = "sensor1".data then setDriver st "controller".data "GV3".data v
    else if ev.1 = "sensor2".data then setDriver st "controller".data "GV4".data v
    else if ev.1 = "sensor3".data then setDriver st "controller".data "GV5".data v
    else if ev.1 = "airtemp".data then setDriver st "controller".data "CLITEMP".data v
    else if ev.1 = "soltemp".data then setDriver st "controller".data "GV9".data v
    else if ev.1 = "pooltemp".data then setDriver st "poolht".data "ST".data v
    else if ev.1 = "poolsp".data then setDriver st "poolht".data "CLISPH".data v
    else if ev.1 = "spatemp".data then setDriver st "spaht".data "ST".data v
    else if ev.1 = "spasp".data then setDriver st "spaht".data "CLISPH".data v
    else if ev.1 = "poolht".data then
      setDriver st "poolht".data "CLIMD".data
        (update_thermo_drivers "poolht".data v 0).1
    else if ev.1 = "spaht".data then
      setDriver st "spaht".data "CLIMD".data
        (update_thermo_drivers "spaht".data v 0).1
    else if ev.1 = "htstatus".data then
      match (update_thermo_drivers "poolht".data 0 v).2,
            (update_thermo_drivers "spaht".data 0 v).2 with
      | some hp, some hs =>
        setDriver (setDriver st "poolht".data "CLIHCS".data hp)
          "spaht".data "CLIHCS".data hs
      | _, _ => st
    else if ev.1 ∈ nodes then setDriver st ev.1 "ST".data v
    else st

/-- The push path of the round-trip property: one wire line delivered
through the listener, its translated events applied to the per-device
state by the handler. -/
def pushState (nodes : List (List Char)) (st : DeviceStates)
    (w tok tail : List Char) : DeviceStates :=
  (runListener [.data ("!00 ".data ++ w ++ '=' :: (tok ++ tail))]).1.foldl
    (applyEvent nodes) st

/-- A concrete baseline device state for the solar-temperature
counterexample: the controller drivers hold the values of an earlier
snapshot whose solar temperature was 60. -/
def solarBaseline : DeviceStates :=
  update_controller_drivers (fun _ => none) 1 0 0 1 1 1 68 60

/-- The greedy group `([A-Z0-9]+)` captures exactly a maximal token run:
appending a remainder that does not begin with a token character leaves
the run/remainder split at the boundary. -/
theorem takeTokenRun_append (l r : List Char)
    (hl : l.all isTokenChar = true)
    (hr : ∀ c, r.head? = some c → isTokenChar c = false) :
    takeTokenRun (l ++ r) = (l, r) := by
  induction l with
  | nil =>
    simp only [List.nil_append]
    cases r with
    | nil => rfl
    | cons c r' =>
      have hc := hr c rfl
      simp [takeTokenRun, hc]
  | cons c l' ih =>
    simp only [List.all_cons, Bool.and_eq_true] at hl
    have := ih hl.2
    simp [takeTokenRun, hl.1, List.cons_append, this]

/-- A line `!00 <cmd>=<val><tail>` with nonempty token groups and a
well-formed tail matches the status-update pattern, capturing exactly
`cmd` and `val`. -/
theorem parseStatusUpdate_wf (cmd val tail : List Char)
    (hc : cmd ≠ []) (hcall : cmd.all isTokenChar = true)
    (hv : val ≠ []) (hvall : val.all isTokenChar = true)
    (ht : tail ∈ wfTails) :
    parseStatusUpdate ("!00 ".data ++ cmd ++ '=' :: (val ++ tail)) =
      some (cmd, val) := by
  have hcmd : takeTokenRun (cmd ++ '=' :: (val ++ tail)) =
      (cmd, '=' :: (val ++ tail)) := by
    apply takeTokenRun_append _ _ hcall
    intro c hc'
    simp only [List.head?] at hc'
    cases hc'
    decide
  have htail : ∀ c, tail.head? = some c → isTokenChar c = false := by
    intro c hc'
    fin_cases ht <;> simp_all [List.head?] <;> subst hc' <;> decide
  have hval : takeTokenRun (val ++ tail) = (val, tail) :=
    takeTokenRun_append _ _ hvall htail
  have hdrop : (dropOptUnit (dropOptSpace tail)).take 2 = ['\r', '\n'] := by
    fin_cases ht <;> rfl
  show parseStatusUpdate ('!' :: '0' :: '0' :: ' ' :: (cmd ++ '=' :: (val ++ tail))) =
    some (cmd, val)
  simp only [parseStatusUpdate, hcmd, List.head?, List.tail, hval, hdrop]
  simp [hc, hv]

/-- Python containment `pat in msg` holds whenever `pat` is a prefix of `msg`. -/
theorem containsSub_append (pat rest : List Char) :
    containsSub pat (pat ++ rest) = true := by
  rw [containsSub, List.any_eq_true]
  refine ⟨pat ++ rest, ?_, ?_⟩
  · exact (List.mem_tails _ _).mpr (List.suffix_refl _)
  · exact List.isPrefixOf_iff_prefix.mpr (List.prefix_append _ _)

/-- Processing a well-formed, fully-buffered status line delivers exactly
the translated event. -/
theorem processMsg_wf (cmd val tail e : List Char)
    (hc : cmd ≠ []) (hcall : cmd.all isTokenChar = true)
    (hv : val ≠ []) (hvall : val.all isTokenChar = true)
    (ht : tail ∈ wfTails)
    (he : cmd_to_element cmd = some e) :
    processMsg ("!00 ".data ++ cmd ++ '=' :: (val ++ tail)) =
      .next (some (e, val_to_text val)) := by
  rw [processMsg]
  rw [parseStatusUpdate_wf cmd val tail hc hcall hv hvall ht]
  simp [he]

/-- Python `int` succeeds on a nonempty digit string, yielding its
decimal value. -/
theorem pyInt?_digits (ds : List Char) (h : ds ≠ [])
    (hall : ds.all Char.isDigit = true) :
    pyInt? ds = some ((digitsVal ds : Int)) := by
  rw [pyInt?]
  have hne : ¬ ds.head? = some '-' := by
    cases ds with
    | nil => simp at h
    | cons c t =>
      simp only [List.all_cons, Bool.and_eq_true] at hall
      simp only [List.head?, Option.some.injEq]
      intro hc
      rw [hc] at hall
      exact absurd hall.1 (by decide)
  rw [if_neg hne, if_pos ⟨h, hall⟩]

/-- Claim C2 counterexample: the claim says `cmd_to_element` is total and
never fails, with every token outside the CIR family and the fixed table
mapped to its lower-cased copy.  On the token `CIRX` the source evaluates
`int("X")`, which raises `ValueError` (embedded as `none`): the function
fails instead of returning the lower-cased copy `cirx`. -/
theorem C2_cmd_to_element_counterexample :
    cmd_to_element "CIRX".data = none ∧
    cmd_to_element "CIRX".data ≠ some ("CIRX".data.map Char.toLower) := by
  decide

/-- Claim C2 (amended): `cmd_to_element` maps `CIR<n>` with `n` a digit
string to `feature(n-40)` when `n` is in `41..50` and to `circuit<n>`
otherwise; a token starting with `CIR` whose remainder `int` cannot parse
makes the function raise (return `none`); the ten fixed named tokens map
per the table; every other token (one whose first three characters are
not `CIR` and which is not in the table) maps to its lower-cased copy. -/
theorem C2_cmd_to_element_amended :
    (∀ ds : List Char, ds ≠ [] → ds.all Char.isDigit = true →
       41 ≤ digitsVal ds → digitsVal ds ≤ 50 →
       cmd_to_element ("CIR".data ++ ds) =
         some ("feature".data ++ (toString ((digitsVal ds : Int) - 40)).data)) ∧
    (∀ ds : List Char, ds ≠ [] → ds.all Char.isDigit = true →
       ¬(41 ≤ digitsVal ds ∧ digitsVal ds ≤ 50) →
       cmd_to_element ("CIR".data ++ ds) = some ("circuit".data ++ ds)) ∧
    (∀ ds : List Char, pyInt? ds = none →
       cmd_to_element ("CIR".data ++ ds) = none) ∧
    (cmd_to_element "AIRTMP".data = some "airtemp".data ∧
     cmd_to_element "SPATMP".data = some "spatemp".data ∧
     cmd_to_element "SOLHT".data = some "solarht".data ∧
     cmd_to_element "SOLTMP".data = some "solartemp".data ∧
     cmd_to_element "WFALL".data = some "waterfall".data ∧
     cmd_to_element "CLEAN".data = some "cleaner".data ∧
     cmd_to_element "OPTIONS".data = some "dip".data ∧
     cmd_to_element "UNITS".data = some "tempunits".data ∧
     cmd_to_element "POOLTMP".data = some "pooltemp".data ∧
     cmd_to_element "POOLTMP2".data = some "pooltemp".data) ∧
    (∀ cmd : List Char, cmd.take 3 ≠ "CIR".data →
       cmd ∉ ["AIRTMP".data, "SPATMP".data, "SOLHT".data, "SOLTMP".data,
              "WFALL".data, "CLEAN".data, "OPTIONS".data, "UNITS".data,
              "POOLTMP".data, "POOLTMP2".data] →
       cmd_to_element cmd = some (cmd.map Char.toLower)) := by
  refine ⟨?_, ?_, ?_, by decide, ?_⟩
  · intro ds h hall h41 h50
    show cmd_to_element ('C' :: 'I' :: 'R' :: ds) = _
    rw [cmd_to_element,
      if_pos (show ('C' :: 'I' :: 'R' :: ds).take 3 = "CIR".data from rfl),
      show ('C' :: 'I' :: 'R' :: ds).drop 3 = ds from rfl,
      pyInt?_digits ds h hall, Option.map_some']
    rw [if_pos ⟨by exact_mod_cast h41, by exact_mod_cast h50⟩]
  · intro ds h hall hout
    show cmd_to_element ('C' :: 'I' :: 'R' :: ds) = _
    rw [cmd_to_element,
      if_pos (show ('C' :: 'I' :: 'R' :: ds).take 3 = "CIR".data from rfl),
      show ('C' :: 'I' :: 'R' :: ds).drop 3 = ds from rfl,
      pyInt?_digits ds h hall, Option.map_some']
    rw [if_neg (by omega)]
  · intro ds hnone
    show cmd_to_element ('C' :: 'I' :: 'R' :: ds) = _
    rw [cmd_to_element,
      if_pos (show ('C' :: 'I' :: 'R' :: ds).take 3 = "CIR".data from rfl),
      show ('C' :: 'I' :: 'R' :: ds).drop 3 = ds from rfl,
      hnone, Option.map_none']
  · intro cmd hcir htab
    simp only [List.mem_cons, List.not_mem_nil, or_false, not_or] at htab
    obtain ⟨h1, h2, h3, h4, h5, h6, h7, h8, h9, h10⟩ := htab
    rw [cmd_to_element, if_neg hcir, if_neg h1, if_neg h2, if_neg h3, if_neg h4,
      if_neg h5, if_neg h6, if_neg h7, if_neg h8, if_neg h9, if_neg h10]

/-- Witness for the amended claim C2 at concrete tokens: `CIR45` is a
feature, `CIR5` a circuit, `CIRX` raises, and `FILTER` falls through to
the lower-cased copy. -/
theorem C2_cmd_to_element_amended_witness :
    cmd_to_element ("CIR".data ++ "45".data) =
      some ("feature".data ++ (toString ((digitsVal "45".data : Int) - 40)).data) ∧
    cmd_to_element ("CIR".data ++ "5".data) = some ("circuit".data ++ "5".data) ∧
    cmd_to_element ("CIR".data ++ "X".data) = none ∧
    cmd_to_element "FILTER".data = some ("FILTER".data.map Char.toLower) :=
  ⟨C2_cmd_to_element_amended.1 "45".data (by decide) (by decide) (by decide) (by decide),
   C2_cmd_to_element_amended.2.1 "5".data (by decide) (by decide) (by decide),
   C2_cmd_to_element_amended.2.2.1 "X".data (by decide),
   C2_cmd_to_element_amended.2.2.2.2 "FILTER".data (by decide) (by decide)⟩

/-- Claim C7: `val_to_text` is total; the twelve fixed tokens map to the
documented digit strings and every other token is returned unchanged. -/
theorem C7_val_to_text_total :
    (val_to_text "AUTO".data = "0".data ∧
     val_to_text "SERVICE".data = "1".data ∧
     val_to_text "TIMEOUT".data = "2".data ∧
     val_to_text "TRUE".data = "1".data ∧
     val_to_text "T".data = "1".data ∧
     val_to_text "ON".data = "1".data ∧
     val_to_text "HEATER".data = "1".data ∧
     val_to_text "FALSE".data = "0".data ∧
     val_to_text "F".data = "0".data ∧
     val_to_text "OFF".data = "0".data ∧
     val_to_text "SOLPREF".data = "2".data ∧
     val_to_text "SOLAR".data = "3".data) ∧
    (∀ v : List Char,
       v ∉ ["AUTO".data, "SERVICE".data, "TIMEOUT".data, "TRUE".data,
            "FALSE".data, "T".data, "F".data, "ON".data, "OFF".data,
            "HEATER".data, "SOLPREF".data, "SOLAR".data] →
       val_to_text v = v) := by
  refine ⟨by decide, ?_⟩
  intro v htab
  simp only [List.mem_cons, List.not_mem_nil, or_false, not_or] at htab
  obtain ⟨h1, h2, h3, h4, h5, h6, h7, h8, h9, h10, h11, h12⟩ := htab
  rw [val_to_text, if_neg h1, if_neg h2, if_neg h3, if_neg h4, if_neg h5,
    if_neg h6, if_neg h7, if_neg h8, if_neg h9, if_neg h10, if_neg h11,
    if_neg h12]

/-- Witness for claim C7: the numeric token `78` is not in the fixed
table and passes through unchanged. -/
theorem C7_val_to_text_total_witness :
    val_to_text "78".data = "78".data :=
  C7_val_to_text_total.2 "78".data (by decide)

/-- Claim C3: `get_status` returns `None` (without raising) on a network
timeout, a connection failure, or an HTTP error status, and also when the
response parses but its root element tag is not `response`; any other
unexpected failure propagates as a raised exception. -/
theorem C3_get_status_absent :
    AutelisInterface.get_status .timeout = .ok none ∧
    AutelisInterface.get_status .connError = .ok none ∧
    AutelisInterface.get_status .httpError = .ok none ∧
    (∀ doc : XmlElem, doc.tag ≠ "response".data →
       AutelisInterface.get_status (.success doc) = .ok none) ∧
    AutelisInterface.get_status .unexpected = .error () ∧
    AutelisInterface.get_status .badBody = .error () := by
  refine ⟨rfl, rfl, rfl, ?_, rfl, rfl⟩
  intro doc hdoc
  rw [AutelisInterface.get_status, if_neg hdoc]

/-- Witness for claim C3: a reachable controller answering with a parsed
document whose root tag is `status` (not `response`) yields `None`. -/
theorem C3_get_status_absent_witness :
    AutelisInterface.get_status (.success ⟨"status".data, none, []⟩) = .ok none :=
  C3_get_status_absent.2.2.2.1 ⟨"status".data, none, []⟩ (by decide)

/-- Claim C6: `send_command` issues one authenticated GET whose query is
`name=<element>&<label>=<value>`, returns `True` on HTTP success,
`False` on a timeout, connection error or HTTP error status, and
propagates an unexpected error; the wrappers use label `value` with 1
for `on` and 0 for `off`, label `temp` for `set_temp`, and label `hval`
for `set_heat_setting`. -/
theorem C6_send_command :
    (∀ (element label : List Char) (value : Int) (o : CmdOutcome),
       (AutelisInterface.send_command element label value o).1 =
         "name=".data ++ element ++ "&".data ++ label ++ "=".data ++
           (toString value).data) ∧
    (∀ (element label : List Char) (value : Int),
       (AutelisInterface.send_command element label value .ok).2 = .ok true ∧
       (AutelisInterface.send_command element label value .timeout).2 = .ok false ∧
       (AutelisInterface.send_command element label value .connError).2 = .ok false ∧
       (AutelisInterface.send_command element label value .httpError).2 = .ok false ∧
       (AutelisInterface.send_command element label value .unexpected).2 =
         .error ()) ∧
    (∀ (element : List Char) (o : CmdOutcome),
       AutelisInterface.on element o =
         AutelisInterface.send_command element "value".data 1 o ∧
       AutelisInterface.off element o =
         AutelisInterface.send_command element "value".data 0 o) ∧
    (∀ (element : List Char) (value : Int) (o : CmdOutcome),
       AutelisInterface.set_temp element value o =
         AutelisInterface.send_command element "temp".data value o ∧
       AutelisInterface.set_heat_setting element value o =
         AutelisInterface.send_command element "hval".data value o) :=
  ⟨fun _ _ _ _ => rfl,
   fun _ _ _ => ⟨rfl, rfl, rfl, rfl, rfl⟩,
   fun _ _ => ⟨rfl, rfl⟩,
   fun _ _ _ => ⟨rfl, rfl⟩⟩

/-- Claim C5: thermostat mode derivation from the heater-setting integer
maps 0/1/2/3 to Off/Heat/Auto/AuxHeat bijectively (injective on
`{0,1,2,3}` and each mode attained); heat-cool-status derivation is
address-specific — for `spaht` bit 2 yields Heating, else bit 8 yields
AuxHeat, else Idle; for `poolht` bit 1 yields Heating, else bit 4 yields
AuxHeat, else Idle — and a bitmask of 0 yields Idle regardless of the
heater setting. -/
theorem C5_update_thermo_drivers :
    (∀ (address : List Char) (h : Int),
       isyThermoMode (update_thermo_drivers address 0 h).1 = some .Off ∧
       isyThermoMode (update_thermo_drivers address 1 h).1 = some .Heat ∧
       isyThermoMode (update_thermo_drivers address 2 h).1 = some .Auto ∧
       isyThermoMode (update_thermo_drivers address 3 h).1 = some .AuxHeat) ∧
    (∀ (address : List Char) (h : Int) (s t : Int),
       s ∈ ([0, 1, 2, 3] : List Int) → t ∈ ([0, 1, 2, 3] : List Int) →
       (update_thermo_drivers address s h).1 = (update_thermo_drivers address t h).1 →
       s = t) ∧
    (∀ (s h : Int),
       (Int.land h 2 ≠ 0 →
          ((update_thermo_drivers "spaht".data s h).2).bind isyHeatCoolStatus =
            some .Heating) ∧
       (Int.land h 2 = 0 → Int.land h 8 ≠ 0 →
          ((update_thermo_drivers "spaht".data s h).2).bind isyHeatCoolStatus =
            some .AuxHeat) ∧
       (Int.land h 2 = 0 → Int.land h 8 = 0 →
          ((update_thermo_drivers "spaht".data s h).2).bind isyHeatCoolStatus =
            some .Idle)) ∧
    (∀ (s h : Int),
       (Int.land h 1 ≠ 0 →
          ((update_thermo_drivers "poolht".data s h).2).bind isyHeatCoolStatus =
            some .Heating) ∧
       (Int.land h 1 = 0 → Int.land h 4 ≠ 0 →
          ((update_thermo_drivers "poolht".data s h).2).bind isyHeatCoolStatus =
            some .AuxHeat) ∧
       (Int.land h 1 = 0 → Int.land h 4 = 0 →
          ((update_thermo_drivers "poolht".data s h).2).bind isyHeatCoolStatus =
            some .Idle)) ∧
    (∀ s : Int,
       ((update_thermo_drivers "spaht".data s 0).2).bind isyHeatCoolStatus =
         some .Idle ∧
       ((update_thermo_drivers "poolht".data s 0).2).bind isyHeatCoolStatus =
         some .Idle) := by
  refine ⟨?_, ?_, ?_, ?_, ?_⟩
  · intro address h
    refine ⟨?_, ?_, ?_, ?_⟩ <;> simp [update_thermo_drivers, isyThermoMode]
  · intro address h s t hs ht heq
    fin_cases hs <;> fin_cases ht <;> simp_all [update_thermo_drivers]
  · intro s h
    refine ⟨fun h2 => ?_, fun h2 h8 => ?_, fun h2 h8 => ?_⟩ <;>
      simp [update_thermo_drivers, h2, isyHeatCoolStatus] <;>
      simp [h8, isyHeatCoolStatus]
  · intro s h
    refine ⟨fun h1 => ?_, fun h1 h4 => ?_, fun h1 h4 => ?_⟩ <;>
      simp [update_thermo_drivers, h1, isyHeatCoolStatus] <;>
      simp [h4, isyHeatCoolStatus]
  · intro s
    constructor <;> simp [update_thermo_drivers, isyHeatCoolStatus] <;> decide

/-- Witness for claim C5 at concrete inputs: heater-setting 2 with
htstatus bit 8 set on the spa heater yields mode Auto and status AuxHeat;
htstatus 0 on the pool heater yields Idle. -/
theorem C5_update_thermo_drivers_witness :
    isyThermoMode (update_thermo_drivers "spaht".data 2 8).1 = some .Auto ∧
    ((update_thermo_drivers "spaht".data 2 8).2).bind isyHeatCoolStatus =
      some .AuxHeat ∧
    ((update_thermo_drivers "poolht".data 5 0).2).bind isyHeatCoolStatus =
      some .Idle :=
  ⟨(C5_update_thermo_drivers.1 "spaht".data 8).2.2.1,
   (C5_update_thermo_drivers.2.2.1 2 8).2.1 (by decide) (by decide),
   (C5_update_thermo_drivers.2.2.2.2 5).2⟩

/-- A decimal digit is a protocol-token character. -/
theorem isTokenChar_of_isDigit (c : Char) (h : c.isDigit = true) :
    isTokenChar c = true := by
  rw [isTokenChar, h, Bool.or_true]

/-- Claim C1: on the 600-second idle timeout the listener probes the
connection; a probe timeout, a socket error during the probe, or a reply
without the success marker `!00 OPMODE=` each close the connection and
produce the failure signal exactly once (the run ends at that point, with
no further events regardless of later socket activity); a reply
containing the marker produces no failure signal — the iteration behaves
exactly like steady receipt of those reply bytes, and message processing
can never produce the failure signal. -/
theorem C1_probe_behavior (msg : List Char) (rest : List RecvOutcome) :
    (runListener (.idleTimeout .timeout :: rest) = ([], .failedSignal)) ∧
    (runListener (.idleTimeout .sockError :: rest) = ([], .failedSignal)) ∧
    (containsSub _TEST_RTN_SUCCESS msg = false →
       runListener (.idleTimeout (.reply msg) :: rest) = ([], .failedSignal)) ∧
    (containsSub _TEST_RTN_SUCCESS msg = true →
       listenerStep (.idleTimeout (.reply msg)) = processMsg msg ∧
       runListener (.idleTimeout (.reply msg) :: rest) =
         runListener (.data msg :: rest) ∧
       (∀ m : List Char, processMsg m ≠ .failed)) := by
  refine ⟨by simp [runListener, listenerStep], by simp [runListener, listenerStep],
    fun hf => ?_, fun ht => ⟨?_, ?_, ?_⟩⟩
  · simp [runListener, listenerStep, hf]
  · simp [listenerStep, ht]
  · simp [runListener, listenerStep, ht]
  · intro m
    rw [processMsg]
    split
    · split
      · split <;> simp
      · simp
    · simp

/-- Witness for claim C1: a marker-less probe reply ends the run with the
single failure signal; the probe reply `!00 OPMODE=0\r\n` makes the
iteration identical to steady receipt of those bytes. -/
theorem C1_probe_behavior_witness :
    runListener [.idleTimeout (.reply "!00 XYZ".data)] = ([], .failedSignal) ∧
    runListener [.idleTimeout (.reply "!00 OPMODE=0\r\n".data)] =
      runListener [.data "!00 OPMODE=0\r\n".data] :=
  ⟨(C1_probe_behavior "!00 XYZ".data []).2.2.1 (by decide),
   ((C1_probe_behavior "!00 OPMODE=0\r\n".data []).2.2.2 (by decide)).2.1⟩

/-- Claim C10: a receive that returns zero bytes (orderly peer shutdown
without a socket error) neither closes the connection nor produces a
failure signal: the empty payload is skipped and the loop continues
unchanged. -/
theorem C10_empty_recv (rest : List RecvOutcome) :
    listenerStep (.data []) = .next none ∧
    runListener (.data [] :: rest) = runListener rest := by
  constructor
  · rfl
  · simp [runListener, listenerStep, processMsg]

/-- Claim C9: a successful probe reply is not discarded — the same bytes
fall through to the push-message processing, so a reply of the form
`!00 OPMODE=<v>\r\n` with `<v>` a nonempty alphanumeric token is
delivered to the caller's handler as the normalized event
`("opmode", translated value)` before the listener resumes waiting. -/
theorem C9_probe_reply_delivered (v : List Char) (rest : List RecvOutcome)
    (hv : v ≠ []) (hvall : v.all isTokenChar = true) :
    runListener
        (.idleTimeout (.reply ("!00 OPMODE=".data ++ v ++ "\r\n".data)) :: rest) =
      (("opmode".data, val_to_text v) :: (runListener rest).1,
       (runListener rest).2) := by
  have hcontain : containsSub _TEST_RTN_SUCCESS
      ("!00 OPMODE=".data ++ v ++ "\r\n".data) = true := by
    rw [show _TEST_RTN_SUCCESS = "!00 OPMODE=".data from rfl, List.append_assoc]
    exact containsSub_append _ _
  have hpm : processMsg ("!00 OPMODE=".data ++ v ++ "\r\n".data) =
      .next (some ("opmode".data, val_to_text v)) := by
    rw [show "!00 OPMODE=".data ++ v ++ "\r\n".data =
        "!00 ".data ++ "OPMODE".data ++ '=' :: (v ++ "\r\n".data) from rfl]
    exact processMsg_wf "OPMODE".data v "\r\n".data "opmode".data
      (by decide) (by decide) hv hvall (by decide) (by decide)
  simp only [List.cons_append, List.nil_append] at hcontain hpm
  simp [runListener, listenerStep, hcontain, hpm]

/-- Witness for claim C9: the probe reply `!00 OPMODE=0\r\n` delivers the
event `("opmode", "0")` and the listener keeps running. -/
theorem C9_probe_reply_delivered_witness :
    runListener
        [.idleTimeout (.reply ("!00 OPMODE=".data ++ "0".data ++ "\r\n".data))] =
      (("opmode".data, val_to_text "0".data) ::
         (runListener ([] : List RecvOutcome)).1,
       (runListener ([] : List RecvOutcome)).2) :=
  C9_probe_reply_delivered "0".data [] (by decide) (by decide)

/-- Claim C4 counterexample: the push line `!00 AIRTMP=100 F\r\n`, whose
bytes arrive split across two reads (`!00 AIRTMP=1` then `00 F\r\n`),
produces zero events — each fragment is matched against the pattern on
its own and dropped — whereas the claim requires exactly one normalized
event per newline-terminated line however the bytes are split.  The same
line arriving in a single read produces exactly one event. -/
theorem C4_split_read_counterexample :
    "!00 AIRTMP=1".data ++ "00 F\r\n".data = "!00 AIRTMP=100 F\r\n".data ∧
    runListener [.data "!00 AIRTMP=1".data, .data "00 F\r\n".data] =
      ([], .pending) ∧
    runListener [.data "!00 AIRTMP=100 F\r\n".data] =
      ([("airtemp".data, "100".data)], .pending) := by
  refine ⟨by decide, by decide, by decide⟩

/-- Claim C4 (amended): framing is one message per read, not per line —
a push message whose entire newline-terminated line
`!00 <cmd>=<val>[ [F|C]]\r\n` arrives within a single read, and whose
command token translates without error, is delivered as exactly one
normalized (translated element, translated value) event; a line split
across reads is not reassembled (each fragment is dropped as protocol
noise). -/
theorem C4_single_read_framing (cmd val tail e : List Char)
    (rest : List RecvOutcome)
    (hc : cmd ≠ []) (hcall : cmd.all isTokenChar = true)
    (hv : val ≠ []) (hvall : val.all isTokenChar = true)
    (ht : tail ∈ wfTails) (he : cmd_to_element cmd = some e) :
    runListener (.data ("!00 ".data ++ cmd ++ '=' :: (val ++ tail)) :: rest) =
      ((e, val_to_text val) :: (runListener rest).1, (runListener rest).2) := by
  have hpm := processMsg_wf cmd val tail e hc hcall hv hvall ht he
  simp only [List.cons_append, List.nil_append] at hpm
  simp [runListener, listenerStep, hpm]

/-- Witness for the amended claim C4: the line `!00 AIRTMP=100 F\r\n`
received whole in one read delivers exactly the event
`("airtemp", "100")`. -/
theorem C4_single_read_framing_witness :
    runListener
        [.data ("!00 ".data ++ "AIRTMP".data ++ '=' :: ("100".data ++ " F\r\n".data))] =
      (("airtemp".data, val_to_text "100".data) ::
         (runListener ([] : List RecvOutcome)).1,
       (runListener ([] : List RecvOutcome)).2) :=
  C4_single_read_framing "AIRTMP".data "100".data " F\r\n".data "airtemp".data []
    (by decide) (by decide) (by decide) (by decide) (by decide) (by decide)

/-- A single well-formed push line received whole in one read produces
exactly one translated event and leaves the listener running. -/
theorem runListener_single_line (w tok tail e : List Char)
    (hw : w ≠ []) (hwall : w.all isTokenChar = true)
    (htok : tok ≠ []) (htokall : tok.all isTokenChar = true)
    (htail : tail ∈ wfTails) (he : cmd_to_element w = some e) :
    runListener [.data ("!00 ".data ++ w ++ '=' :: (tok ++ tail))] =
      ([(e, val_to_text tok)], .pending) := by
  have hpm := processMsg_wf w tok tail e hw hwall htok htokall htail he
  simp only [List.cons_append, List.nil_append] at hpm
  simp [runListener, listenerStep, hpm]

/-- Claim C8 counterexample: the solar-temperature fact breaks the
push/snapshot round trip.  The source translator maps the wire token
`SOLTMP` to the element name `solartemp`, but the snapshot path reads
the solar temperature from the snapshot element `soltemp` (and the
State Mapper vocabulary is keyed accordingly): the push line
`!00 SOLTMP=75 F\r\n` is translated and delivered as the event
`(solartemp, 75)`, which names no device or field, so the handler path
leaves the state unchanged (GV9 still 60) while the snapshot path
carrying the same fact updates GV9 to 75 — the event would have been
applied had the translator produced the snapshot vocabulary name
`soltemp`. -/
theorem C8_push_snapshot_counterexample :
    cmd_to_element "SOLTMP".data = some "solartemp".data ∧
    (runListener [.data "!00 SOLTMP=75 F\r\n".data]).1 =
      [("solartemp".data, "75".data)] ∧
    (runListener [.data "!00 SOLTMP=75 F\r\n".data]).1.foldl
        (applyEvent ["circuit5".data]) solarBaseline = solarBaseline ∧
    solarBaseline ("controller".data, "GV9".data) = some 60 ∧
    update_controller_drivers solarBaseline 1 0 0 1 1 1 68 75
        ("controller".data, "GV9".data) = some 75 ∧
    (applyEvent ["circuit5".data] solarBaseline ("soltemp".data, "75".data))
        ("controller".data, "GV9".data) = some 75 ∧
    "solartemp".data ≠ "soltemp".data := by
  refine ⟨by decide, by decide, ?_, by decide, by decide, by decide, by decide⟩
  rfl

/-- A single-line push delivery reduces to one handler application. -/
theorem pushState_eq (nodes : List (List Char)) (st : DeviceStates)
    (w tok tail e : List Char)
    (hw : w ≠ []) (hwall : w.all isTokenChar = true)
    (htok : tok ≠ []) (htokall : tok.all isTokenChar = true)
    (htail : tail ∈ wfTails) (he : cmd_to_element w = some e) :
    pushState nodes st w tok tail = applyEvent nodes st (e, val_to_text tok) := by
  rw [pushState, runListener_single_line w tok tail e hw hwall htok htokall htail he]
  rw [List.foldl_cons, List.foldl_nil]

set_option maxHeartbeats 1600000 in
/-- Claim C8 (amended): for every underlying controller fact whose
translated push element name coincides with the vocabulary the snapshot
path consumes, delivering the fact as a push line through the listener
and the handler produces the same final per-device state as delivering
it as the corresponding snapshot field through the matching portion of
`update_node_states`, from any baseline state consistent with the
snapshot's unchanged fields.  Covered facts: equipment circuit/feature
states (any wire token translating to an equipment node name),
the system fields RUNSTATE/OPMODE/FREEZE/SENSOR1-3 and the air
temperature AIRTMP, the current temperatures POOLTMP/POOLTMP2/SPATMP,
the setpoints POOLSP/SPASP, the heater settings POOLHT/SPAHT, and the
heating-status bitmask HTSTATUS.  The solar-temperature fact is
excluded: the translator emits `solartemp` while the snapshot reads
`soltemp`, so its push delivery is dropped (the counterexample). -/
theorem C8_push_snapshot_equivalence_amended :
    (∀ (st : DeviceStates) (nodes : List (List Char)) (w tok tail e : List Char),
       w ≠ [] → w.all isTokenChar = true →
       tok ≠ [] → tok.all isTokenChar = true → tail ∈ wfTails →
       val_to_text tok ≠ [] → (val_to_text tok).all Char.isDigit = true →
       cmd_to_element w = some e → e ∈ nodes →
       e ∉ ["runstate".data, "opmode".data, "freeze".data, "sensor1".data,
            "sensor2".data, "sensor3".data, "airtemp".data, "soltemp".data,
            "pooltemp".data, "poolsp".data, "spatemp".data, "spasp".data,
            "poolht".data, "spaht".data, "htstatus".data] →
       update_equipment_states nodes st [⟨e, some (val_to_text tok), []⟩] =
         .ok (pushState nodes st w tok tail)) ∧
    (∀ (st : DeviceStates) (nodes : List (List Char)) (tok tail : List Char)
       (r o f s1 s2 s3 a sol : Int),
       tok ≠ [] → tok.all isTokenChar = true → tail ∈ wfTails →
       val_to_text tok ≠ [] → (val_to_text tok).all Char.isDigit = true →
       st ("controller".data, "GV0".data) = some r →
       st ("controller".data, "GV1".data) = some o →
       st ("controller".data, "GV2".data) = some f →
       st ("controller".data, "GV3".data) = some s1 →
       st ("controller".data, "GV4".data) = some s2 →
       st ("controller".data, "GV5".data) = some s3 →
       st ("controller".data, "CLITEMP".data) = some a →
       st ("controller".data, "GV9".data) = some sol →
       (update_controller_drivers st (digitsVal (val_to_text tok) : Int)
          o f s1 s2 s3 a sol = pushState nodes st "RUNSTATE".data tok tail) ∧
       (update_controller_drivers st r (digitsVal (val_to_text tok) : Int)
          f s1 s2 s3 a sol = pushState nodes st "OPMODE".data tok tail) ∧
       (update_controller_drivers st r o (digitsVal (val_to_text tok) : Int)
          s1 s2 s3 a sol = pushState nodes st "FREEZE".data tok tail) ∧
       (update_controller_drivers st r o f (digitsVal (val_to_text tok) : Int)
          s2 s3 a sol = pushState nodes st "SENSOR1".data tok tail) ∧
       (update_controller_drivers st r o f s1 (digitsVal (val_to_text tok) : Int)
          s3 a sol = pushState nodes st "SENSOR2".data tok tail) ∧
       (update_controller_drivers st r o f s1 s2 (digitsVal (val_to_text tok) : Int)
          a sol = pushState nodes st "SENSOR3".data tok tail) ∧
       (update_controller_drivers st r o f s1 s2 s3
          (digitsVal (val_to_text tok) : Int) sol =
          pushState nodes st "AIRTMP".data tok tail)) ∧
    (∀ (st : DeviceStates) (nodes : List (List Char)) (tok tail : List Char)
       (setting htst setPoint : Int),
       tok ≠ [] → tok.all isTokenChar = true → tail ∈ wfTails →
       val_to_text tok ≠ [] → (val_to_text tok).all Char.isDigit = true →
       st ("poolht".data, "CLISPH".data) = some setPoint →
       st ("poolht".data, "CLIMD".data) =
         some (update_thermo_drivers "poolht".data setting htst).1 →
       st ("poolht".data, "CLIHCS".data) =
         (update_thermo_drivers "poolht".data setting htst).2 →
       (update_temp_control st "poolht".data setting htst setPoint
          (digitsVal (val_to_text tok) : Int) =
          pushState nodes st "POOLTMP".data tok tail) ∧
       (update_temp_control st "poolht".data setting htst setPoint
          (digitsVal (val_to_text tok) : Int) =
          pushState nodes st "POOLTMP2".data tok tail)) ∧
    (∀ (st : DeviceStates) (nodes : List (List Char)) (tok tail : List Char)
       (setting htst setPoint : Int),
       tok ≠ [] → tok.all isTokenChar = true → tail ∈ wfTails →
       val_to_text tok ≠ [] → (val_to_text tok).all Char.isDigit = true →
       st ("spaht".data, "CLISPH".data) = some setPoint →
       st ("spaht".data, "CLIMD".data) =
         some (update_thermo_drivers "spaht".data setting htst).1 →
       st ("spaht".data, "CLIHCS".data) =
         (update_thermo_drivers "spaht".data setting htst).2 →
       update_temp_control st "spaht".data setting htst setPoint
         (digitsVal (val_to_text tok) : Int) =
         pushState nodes st "SPATMP".data tok tail) ∧
    (∀ (st : DeviceStates) (nodes : List (List Char)) (tok tail : List Char)
       (setting htst currentTemp : Int),
       tok ≠ [] → tok.all isTokenChar = true → tail ∈ wfTails →
       val_to_text tok ≠ [] → (val_to_text tok).all Char.isDigit = true →
       st ("poolht".data, "ST".data) = some currentTemp →
       st ("poolht".data, "CLIMD".data) =
         some (update_thermo_drivers "poolht".data setting htst).1 →
       st ("poolht".data, "CLIHCS".data) =
         (update_thermo_drivers "poolht".data setting htst).2 →
       update_temp_control st "poolht".data setting htst
         (digitsVal (val_to_text tok) : Int) currentTemp =
         pushState nodes st "POOLSP".data tok tail) ∧
    (∀ (st : DeviceStates) (nodes : List (List Char)) (tok tail : List Char)
       (setting htst currentTemp : Int),
       tok ≠ [] → tok.all isTokenChar = true → tail ∈ wfTails →
       val_to_text tok ≠ [] → (val_to_text tok).all Char.isDigit = true →
       st ("spaht".data, "ST".data) = some currentTemp →
       st ("spaht".data, "CLIMD".data) =
         some (update_thermo_drivers "spaht".data setting htst).1 →
       st ("spaht".data, "CLIHCS".data) =
         (update_thermo_drivers "spaht".data setting htst).2 →
       update_temp_control st "spaht".data setting htst
         (digitsVal (val_to_text tok) : Int) currentTemp =
         pushState nodes st "SPASP".data tok tail) ∧
    (∀ (st : DeviceStates) (nodes : List (List Char)) (tok tail : List Char)
       (htst setPoint currentTemp : Int),
       tok ≠ [] → tok.all isTokenChar = true → tail ∈ wfTails →
       val_to_text tok ≠ [] → (val_to_text tok).all Char.isDigit = true →
       st ("poolht".data, "ST".data) = some currentTemp →
       st ("poolht".data, "CLISPH".data) = some setPoint →
       st ("poolht".data, "CLIHCS".data) =
         (update_thermo_drivers "poolht".data 0 htst).2 →
       update_temp_control st "poolht".data
         (digitsVal (val_to_text tok) : Int) htst setPoint currentTemp =
         pushState nodes st "POOLHT".data tok tail) ∧
    (∀ (st : DeviceStates) (nodes : List (List Char)) (tok tail : List Char)
       (htst setPoint currentTemp : Int),
       tok ≠ [] → tok.all isTokenChar = true → tail ∈ wfTails →
       val_to_text tok ≠ [] → (val_to_text tok).all Char.isDigit = true →
       st ("spaht".data, "ST".data) = some currentTemp →
       st ("spaht".data, "CLISPH".data) = some setPoint →
       st ("spaht".data, "CLIHCS".data) =
         (update_thermo_drivers "spaht".data 0 htst).2 →
       update_temp_control st "spaht".data
         (digitsVal (val_to_text tok) : Int) htst setPoint currentTemp =
         pushState nodes st "SPAHT".data tok tail) ∧
    (∀ (st : DeviceStates) (nodes : List (List Char)) (tok tail : List Char)
       (settingP spP ctP settingS spS ctS : Int),
       tok ≠ [] → tok.all isTokenChar = true → tail ∈ wfTails →
       val_to_text tok ≠ [] → (val_to_text tok).all Char.isDigit = true →
       st ("poolht".data, "ST".data) = some ctP →
       st ("poolht".data, "CLISPH".data) = some spP →
       st ("poolht".data, "CLIMD".data) =
         some (update_thermo_drivers "poolht".data settingP 0).1 →
       st ("spaht".data, "ST".data) = some ctS →
       st ("spaht".data, "CLISPH".data) = some spS →
       st ("spaht".data, "CLIMD".data) =
         some (update_thermo_drivers "spaht".data settingS 0).1 →
       update_temp_control
         (update_temp_control st "poolht".data settingP
           (digitsVal (val_to_text tok) : Int) spP ctP)
         "spaht".data settingS (digitsVal (val_to_text tok) : Int) spS ctS =
         pushState nodes st "HTSTATUS".data tok tail) := by
  refine ⟨?_, ?_, ?_, ?_, ?_, ?_, ?_, ?_, ?_⟩
  · intro st nodes w tok tail e hw hwall htok htokall htail hn1 hn2 he hmem hnot
    have hv := pyInt?_digits (val_to_text tok) hn1 hn2
    rw [pushState_eq nodes st w tok tail e hw hwall htok htokall htail he]
    simp only [List.mem_cons, List.not_mem_nil, or_false, not_or] at hnot
    obtain ⟨g1, g2, g3, g4, g5, g6, g7, g8, g9, g10, g11, g12, g13, g14, g15⟩ := hnot
    have happ : applyEvent nodes st (e, val_to_text tok) =
        setDriver st e "ST".data (digitsVal (val_to_text tok) : Int) := by
      simp [applyEvent, hv, hmem, g1, g2, g3, g4, g5, g6, g7, g8, g9, g10,
        g11, g12, g13, g14, g15]
    rw [happ]
    simp [update_equipment_states, hmem, hv]
  · intro st nodes tok tail r o f s1 s2 s3 a sol htok htokall htail hn1 hn2
      hb0 hb1 hb2 hb3 hb4 hb5 hb6 hb7
    have hv := pyInt?_digits (val_to_text tok) hn1 hn2
    refine ⟨?_, ?_, ?_, ?_, ?_, ?_, ?_⟩
    · rw [pushState_eq nodes st "RUNSTATE".data tok tail "runstate".data
        (by decide) (by decide) htok htokall htail (by decide)]
      have happ : applyEvent nodes st ("runstate".data, val_to_text tok) =
          setDriver st "controller".data "GV0".data
            (digitsVal (val_to_text tok) : Int) := by
        simp [applyEvent, hv]
      rw [happ, update_controller_drivers]
      clear happ hv htok htokall htail hn1 hn2
      funext k
      simp only [setDriver]
      split_ifs <;> simp_all
    · rw [pushState_eq nodes st "OPMODE".data tok tail "opmode".data
        (by decide) (by decide) htok htokall htail (by decide)]
      have happ : applyEvent nodes st ("opmode".data, val_to_text tok) =
          setDriver st "controller".data "GV1".data
            (digitsVal (val_to_text tok) : Int) := by
        simp [applyEvent, hv]
      rw [happ, update_controller_drivers]
      clear happ hv htok htokall htail hn1 hn2
      funext k
      simp only [setDriver]
      split_ifs <;> simp_all
    · rw [pushState_eq nodes st "FREEZE".data tok tail "freeze".data
        (by decide) (by decide) htok htokall htail (by decide)]
      have happ : applyEvent nodes st ("freeze".data, val_to_text tok) =
          setDriver st "controller".data "GV2".data
            (digitsVal (val_to_text tok) : Int) := by
        simp [applyEvent, hv]
      rw [happ, update_controller_drivers]
      clear happ hv htok htokall htail hn1 hn2
      funext k
      simp only [setDriver]
      split_ifs <;> simp_all
    · rw [pushState_eq nodes st "SENSOR1".data tok tail "sensor1".data
        (by decide) (by decide) htok htokall htail (by decide)]
      have happ : applyEvent nodes st ("sensor1".data, val_to_text tok) =
          setDriver st "controller".data "GV3".data
            (digitsVal (val_to_text tok) : Int) := by
        simp [applyEvent, hv]
      rw [happ, update_controller_drivers]
      clear happ hv htok htokall htail hn1 hn2
      funext k
      simp only [setDriver]
      split_ifs <;> simp_all
    · rw [pushState_eq nodes st "SENSOR2".data tok tail "sensor2".data
        (by decide) (by decide) htok htokall htail (by decide)]
      have happ : applyEvent nodes st ("sensor2".data, val_to_text tok) =
          setDriver st "controller".data "GV4".data
            (digitsVal (val_to_text tok) : Int) := by
        simp [applyEvent, hv]
      rw [happ, update_controller_drivers]
      clear happ hv htok htokall htail hn1 hn2
      funext k
      simp only [setDriver]
      split_ifs <;> simp_all
    · rw [pushState_eq nodes st "SENSOR3".data tok tail "sensor3".data
        (by decide) (by decide) htok htokall htail (by decide)]
      have happ : applyEvent nodes st ("sensor3".data, val_to_text tok) =
          setDriver st "controller".data "GV5".data
            (digitsVal (val_to_text tok) : Int) := by
        simp [applyEvent, hv]
      rw [happ, update_controller_drivers]
      clear happ hv htok htokall htail hn1 hn2
      funext k
      simp only [setDriver]
      split_ifs <;> simp_all
    · rw [pushState_eq nodes st "AIRTMP".data tok tail "airtemp".data
        (by decide) (by decide) htok htokall htail (by decide)]
      have happ : applyEvent nodes st ("airtemp".data, val_to_text tok) =
          setDriver st "controller".data "CLITEMP".data
            (digitsVal (val_to_text tok) : Int) := by
        simp [applyEvent, hv]
      rw [happ, update_controller_drivers]
      clear happ hv htok htokall htail hn1 hn2
      funext k
      simp only [setDriver]
      split_ifs <;> simp_all
  · intro st nodes tok tail setting htst setPoint htok htokall htail hn1 hn2
      hSP hMD hHC
    have hv := pyInt?_digits (val_to_text tok) hn1 hn2
    constructor
    · rw [pushState_eq nodes st "POOLTMP".data tok tail "pooltemp".data
        (by decide) (by decide) htok htokall htail (by decide)]
      have happ : applyEvent nodes st ("pooltemp".data, val_to_text tok) =
          setDriver st "poolht".data "ST".data
            (digitsVal (val_to_text tok) : Int) := by
        simp [applyEvent, hv]
      rw [happ]
      clear happ hv htok htokall htail hn1 hn2
      simp only [update_thermo_drivers] at hMD hHC
      funext k
      simp [update_temp_control, update_thermo_drivers, setDriver]
      split_ifs <;> simp_all [setDriver]
    · rw [pushState_eq nodes st "POOLTMP2".data tok tail "pooltemp".data
        (by decide) (by decide) htok htokall htail (by decide)]
      have happ : applyEvent nodes st ("pooltemp".data, val_to_text tok) =
          setDriver st "poolht".data "ST".data
            (digitsVal (val_to_text tok) : Int) := by
        simp [applyEvent, hv]
      rw [happ]
      clear happ hv htok htokall htail hn1 hn2
      simp only [update_thermo_drivers] at hMD hHC
      funext k
      simp [update_temp_control, update_thermo_drivers, setDriver]
      split_ifs <;> simp_all [setDriver]
  · intro st nodes tok tail setting htst setPoint htok htokall htail hn1 hn2
      hSP hMD hHC
    have hv := pyInt?_digits (val_to_text tok) hn1 hn2
    rw [pushState_eq nodes st "SPATMP".data tok tail "spatemp".data
      (by decide) (by decide) htok htokall htail (by decide)]
    have happ : applyEvent nodes st ("spatemp".data, val_to_text tok) =
        setDriver st "spaht".data "ST".data
          (digitsVal (val_to_text tok) : Int) := by
      simp [applyEvent, hv]
    rw [happ]
    clear happ hv htok htokall htail hn1 hn2
    simp only [update_thermo_drivers] at hMD hHC
    funext k
    simp [update_temp_control, update_thermo_drivers, setDriver]
    split_ifs <;> simp_all [setDriver]
  · intro st nodes tok tail setting htst currentTemp htok htokall htail hn1 hn2
      hST hMD hHC
    have hv := pyInt?_digits (val_to_text tok) hn1 hn2
    rw [pushState_eq nodes st "POOLSP".data tok tail "poolsp".data
      (by decide) (by decide) htok htokall htail (by decide)]
    have happ : applyEvent nodes st ("poolsp".data, val_to_text tok) =
        setDriver st "poolht".data "CLISPH".data
          (digitsVal (val_to_text tok) : Int) := by
      simp [applyEvent, hv]
    rw [happ]
    clear happ hv htok htokall htail hn1 hn2
    simp only [update_thermo_drivers] at hMD hHC
    funext k
    simp [update_temp_control, update_thermo_drivers, setDriver]
    split_ifs <;> simp_all [setDriver]
  · intro st nodes tok tail setting htst currentTemp htok htokall htail hn1 hn2
      hST hMD hHC
    have hv := pyInt?_digits (val_to_text tok) hn1 hn2
    rw [pushState_eq nodes st "SPASP".data tok tail "spasp".data
      (by decide) (by decide) htok htokall htail (by decide)]
    have happ : applyEvent nodes st ("spasp".data, val_to_text tok) =
        setDriver st "spaht".data "CLISPH".data
          (digitsVal (val_to_text tok) : Int) := by
      simp [applyEvent, hv]
    rw [happ]
    clear happ hv htok htokall htail hn1 hn2
    simp only [update_thermo_drivers] at hMD hHC
    funext k
    simp [update_temp_control, update_thermo_drivers, setDriver]
    split_ifs <;> simp_all [setDriver]
  · intro st nodes tok tail htst setPoint currentTemp htok htokall htail hn1 hn2
      hST hSP hHC
    have hv := pyInt?_digits (val_to_text tok) hn1 hn2
    rw [pushState_eq nodes st "POOLHT".data tok tail "poolht".data
      (by decide) (by decide) htok htokall htail (by decide)]
    have happ : applyEvent nodes st ("poolht".data, val_to_text tok) =
        setDriver st "poolht".data "CLIMD".data
          (update_thermo_drivers "poolht".data
            (digitsVal (val_to_text tok) : Int) 0).1 := by
      simp [applyEvent, hv]
    rw [happ]
    clear happ hv htok htokall htail hn1 hn2
    simp only [update_thermo_drivers] at hHC
    funext k
    simp [update_temp_control, update_thermo_drivers, setDriver]
    split_ifs <;> simp_all [setDriver]
  · intro st nodes tok tail htst setPoint currentTemp htok htokall htail hn1 hn2
      hST hSP hHC
    have hv := pyInt?_digits (val_to_text tok) hn1 hn2
    rw [pushState_eq nodes st "SPAHT".data tok tail "spaht".data
      (by decide) (by decide) htok htokall htail (by decide)]
    have happ : applyEvent nodes st ("spaht".data, val_to_text tok) =
        setDriver st "spaht".data "CLIMD".data
          (update_thermo_drivers "spaht".data
            (digitsVal (val_to_text tok) : Int) 0).1 := by
      simp [applyEvent, hv]
    rw [happ]
    clear happ hv htok htokall htail hn1 hn2
    simp only [update_thermo_drivers] at hHC
    funext k
    simp [update_temp_control, update_thermo_drivers, setDriver]
    split_ifs <;> simp_all [setDriver]
  · intro st nodes tok tail settingP spP ctP settingS spS ctS
      htok htokall htail hn1 hn2 hSTp hSPp hMDp hSTs hSPs hMDs
    have hv := pyInt?_digits (val_to_text tok) hn1 hn2
    rw [pushState_eq nodes st "HTSTATUS".data tok tail "htstatus".data
      (by decide) (by decide) htok htokall htail (by decide)]
    have happ : applyEvent nodes st ("htstatus".data, val_to_text tok) =
        setDriver (setDriver st "poolht".data "CLIHCS".data
            (if Int.land (digitsVal (val_to_text tok) : Int) 1 ≠ 0 then 1
             else if Int.land (digitsVal (val_to_text tok) : Int) 4 ≠ 0 then 7
             else 0))
          "spaht".data "CLIHCS".data
            (if Int.land (digitsVal (val_to_text tok) : Int) 2 ≠ 0 then 1
             else if Int.land (digitsVal (val_to_text tok) : Int) 8 ≠ 0 then 7
             else 0) := by
      simp [applyEvent, hv, update_thermo_drivers]
    rw [happ]
    clear happ hv htok htokall htail hn1 hn2
    simp only [update_thermo_drivers] at hMDp hMDs
    funext k
    simp [update_temp_control, update_thermo_drivers, setDriver]
    split_ifs <;> simp_all [setDriver]

/-- Witness for the amended claim C8 at concrete inputs: circuit 5
switched on through both paths, runstate 2 through both paths from the
concrete controller baseline, and a pool temperature of 80 through both
paths from a concrete thermostat baseline. -/
theorem C8_push_snapshot_equivalence_amended_witness :
    update_equipment_states ["circuit5".data] (fun _ => none)
        [⟨"circuit5".data, some (val_to_text "ON".data), []⟩] =
      .ok (pushState ["circuit5".data] (fun _ => none)
        "CIR5".data "ON".data "\r\n".data) ∧
    update_controller_drivers solarBaseline
        (digitsVal (val_to_text "2".data) : Int) 0 0 1 1 1 68 60 =
      pushState ["circuit5".data] solarBaseline
        "RUNSTATE".data "2".data "\r\n".data ∧
    update_temp_control (update_temp_control (fun _ => none) "poolht".data 1 2 95 78)
        "poolht".data 1 2 95 (digitsVal (val_to_text "80".data) : Int) =
      pushState ["circuit5".data]
        (update_temp_control (fun _ => none) "poolht".data 1 2 95 78)
        "POOLTMP".data "80".data "\r\n".data :=
  ⟨C8_push_snapshot_equivalence_amended.1 (fun _ => none) ["circuit5".data]
     "CIR5".data "ON".data "\r\n".data "circuit5".data
     (by decide) (by decide) (by decide) (by decide) (by decide) (by decide)
     (by decide) (by decide) (by decide) (by decide),
   (C8_push_snapshot_equivalence_amended.2.1 solarBaseline ["circuit5".data]
     "2".data "\r\n".data 1 0 0 1 1 1 68 60
     (by decide) (by decide) (by decide) (by decide) (by decide)
     (by decide) (by decide) (by decide) (by decide) (by decide) (by decide)
     (by decide) (by decide)).1,
   (C8_push_snapshot_equivalence_amended.2.2.1
     (update_temp_control (fun _ => none) "poolht".data 1 2 95 78)
     ["circuit5".data] "80".data "\r\n".data 1 2 95
     (by decide) (by decide) (by decide) (by decide) (by decide)
     (by decide) (by decide) (by decide)).1⟩
